import Mathlib

/-!
Verification of the SafeTrail threat-analysis scripts
(`backend/ml_model/predict.py` and `backend/ml_model/predict_template.py`).

The two Python scripts are shallowly embedded below.  External
collaborators (the Nominatim reverse geocoder, the CSV file on disk,
the command line) are modelled as explicit inputs: the resolved
district is an `Option String` (`none` = geocoding failed), the loaded
profile table is an `Option (List ProfileRow)` (`none` = the CSV was
never loaded), and wall-clock processing time is a rational parameter.
All strings in play are ASCII, so Python's `str.lower` and `str.title`
are embedded by their ASCII behaviour (`Char.toLower` / `Char.toUpper`).
-/

namespace SafeTrail

/-- Substring machinery: Boolean test that `needle` is a prefix of `hay`,
on lists of characters (embeds the prefix step of Python's `in`). -/
def listPrefixOf : List Char → List Char → Bool
  | [], _ => true
  | _ :: _, [] => false
  | a :: as, b :: bs => a == b && listPrefixOf as bs

/-- Boolean test that `needle` occurs contiguously inside `hay`
(embeds Python's substring operator `needle in hay` on strings). -/
def containsSub (needle : List Char) : List Char → Bool
  | [] => listPrefixOf needle []
  | c :: t => listPrefixOf needle (c :: t) || containsSub needle t

/-- Python `needle in hay` for strings. -/
def strContains (hay needle : String) : Bool :=
  containsSub needle.data hay.data

/-- Python `s.lower()` (ASCII behaviour): lower-case every character. -/
def lowerStr (s : String) : String :=
  ⟨s.data.map Char.toLower⟩

/-- The fixed keyword list `THREAT_KEYWORDS` of predict.py line 18. -/
def THREAT_KEYWORDS : List String :=
  ["protest", "riot", "unrest", "violence", "flood", "cyclone",
   "disaster", "scam", "theft", "robbery", "accident"]

/-- A mock news article: `{"title": ..., "source": {"name": ...}, "url": ...}`. -/
structure SignalItem where
  title : String
  sourceName : Option String
  url : Option String
deriving Repr, DecidableEq

/-- An element of the `threats_detected` list built in
`analyze_threats` (predict.py lines 124-129). -/
structure ThreatMatch where
  title : String
  source : Option String
  url : Option String
  district : String
deriving Repr, DecidableEq

/-- A structured safety alert (predict.py `_check_safety_alert`). -/
structure SafetyAlert where
  type : String
  severity : String
  message : String
deriving Repr, DecidableEq

/-- One row of the district-threat-profile CSV: its `District` column
and the remaining columns in order; a `none` value is a pandas NaN. -/
structure ProfileRow where
  district : String
  attrs : List (String × Option String)
deriving Repr, DecidableEq

/-- The result dictionary produced by `analyze_threats` and
`_get_fallback_result` in predict.py. -/
structure AssessmentResult where
  risk_level : String
  confidence : ℚ
  prediction : String
  insights : List String
  recommendations : List String
  safety_alert : Option SafetyAlert
  model_version : String
  processing_time : ℚ
  district : String
  threats_detected : Nat
  threat_details : List ThreatMatch
deriving Repr, DecidableEq

/-- The match test of predict.py lines 121-122:
`any(keyword in title.lower() for keyword in THREAT_KEYWORDS) and
district_name.lower() in title.lower()`. -/
def titleMatches (districtName title : String) : Bool :=
  (THREAT_KEYWORDS.any fun keyword => strContains (lowerStr title) keyword)
    && strContains (lowerStr title) (lowerStr districtName)

/-- The threat-collection loop of predict.py lines 117-129. -/
def detectThreats (districtName : String) (articles : List SignalItem) :
    List ThreatMatch :=
  articles.filterMap fun article =>
    if titleMatches districtName article.title then
      some { title := article.title, source := article.sourceName,
             url := article.url, district := districtName }
    else none

/-- Python `key.replace('_', ' ')` on one character. -/
def underscoreToSpace (c : Char) : Char :=
  if c = '_' then ' ' else c

/-- Python `s.title()` (ASCII behaviour): an alphabetic character is
upper-cased when the previous character is not alphabetic, lower-cased
otherwise. -/
def titleCaseChars : List Char → Bool → List Char
  | [], _ => []
  | c :: cs, prevAlpha =>
    (if c.isAlpha then (if prevAlpha then c.toLower else c.toUpper) else c)
      :: titleCaseChars cs c.isAlpha

/-- Python `s.title()` on a string. -/
def titleCase (s : String) : String :=
  ⟨titleCaseChars s.data false⟩

/-- The value cleaning of predict.py line 77:
`str(value).replace('[', '').replace(']', '').replace("'", "")`. -/
def cleanValue (v : String) : String :=
  ⟨v.data.filter fun c => !(c == '[' || c == ']' || c == '\'')⟩

/-- The message-building loop of predict.py lines 74-78: one line per
non-District column whose value is not NaN. -/
def profileMessage (row : ProfileRow) : String :=
  row.attrs.foldl
    (fun acc kv =>
      match kv.2 with
      | none => acc
      | some v =>
        acc ++ "\n- " ++ titleCase ⟨kv.1.data.map underscoreToSpace⟩
          ++ ": " ++ cleanValue v)
    ""

/-- `TravelSafetyMLModel.get_district_threats` (predict.py lines 62-83).
Note the guard on line 64, `not self.threat_profiles_df is not None or
district_name is None`, parses as `(threat_profiles_df is None) or
(district_name is None)`.  Row lookup is first row whose `District`
column, lower-cased, equals the district name lower-cased. -/
def get_district_threats (profiles : Option (List ProfileRow))
    (districtName : Option String) : String :=
  match profiles, districtName with
  | none, _ => "No threat data available"
  | some _, none => "No threat data available"
  | some rows, some d =>
    match rows.find? (fun row => lowerStr row.district == lowerStr d) with
    | some row => profileMessage row
    | none => "No specific threat data available for this district"

/-- `TravelSafetyMLModel.get_mock_news_articles` (predict.py lines 85-93). -/
def get_mock_news_articles : List SignalItem :=
  [{ title := "Heavy rains and flood warnings issued for Delhi",
     sourceName := some "Indian News",
     url := some "https://example.com/delhi-flood" },
   { title := "Mumbai traffic chaos due to political protest",
     sourceName := some "Local Times",
     url := some "https://example.com/mumbai-protest" },
   { title := "Tourist scams on the rise in Jaipur",
     sourceName := some "Travel Journal",
     url := some "https://example.com/jaipur-scams" },
   { title := "Road accidents increase in Bangalore",
     sourceName := some "City News",
     url := some "https://example.com/bangalore-accidents" },
   { title := "Theft incidents reported in Chennai",
     sourceName := some "Local Herald",
     url := some "https://example.com/chennai-theft" }]

/-- `TravelSafetyMLModel._generate_insights` (predict.py lines 162-183). -/
def generate_insights (districtName : String) (threats : List ThreatMatch)
    (threatProfile : String) : List String :=
  ["Analyzing safety conditions in " ++ districtName]
    ++ (if threats.length > 0 then
          ("Found " ++ toString threats.length ++ " active threat(s) in the area")
            :: threats.map (fun threat => "Active threat: " ++ threat.title)
        else ["No active threats detected in recent news"])
    ++ [if strContains threatProfile "No specific threat data" then
          "Limited historical threat data for this district"
        else "Historical threat data available for this district"]
    ++ ["Analysis based on real-time news and historical data"]

/-- `TravelSafetyMLModel._generate_recommendations` (predict.py lines 185-208). -/
def generate_recommendations (riskLevel : String)
    (threats : List ThreatMatch) : List String :=
  (if riskLevel == "high" then
     ["âš ï¸ HIGH RISK: Avoid this area if possible",
      "Stay alert and aware of your surroundings",
      "Consider alternative routes or postpone travel",
      "Keep emergency contacts readily available"]
   else if riskLevel == "medium" then
     ["ðŸŸ¡ MODERATE RISK: Exercise caution",
      "Be extra vigilant in this area",
      "Avoid isolated or poorly lit areas",
      "Stay informed about local conditions"]
   else
     ["ðŸŸ¢ LOW RISK: Normal safety precautions apply",
      "Maintain general awareness of surroundings",
      "Follow standard safety practices"])
    ++ (if threats.length > 0 then
          ["Monitor local news for updates",
           "Consider using alternative transportation"]
        else [])

/-- `TravelSafetyMLModel._generate_prediction` (predict.py lines 210-217). -/
def generate_prediction (districtName riskLevel : String) : String :=
  if riskLevel == "high" then
    "High risk detected in " ++ districtName
      ++ ". Multiple threats identified. Avoid if possible."
  else if riskLevel == "medium" then
    "Moderate risk in " ++ districtName
      ++ ". Some safety concerns present. Exercise caution."
  else
    "Low risk in " ++ districtName
      ++ ". Area appears generally safe for normal activities."

/-- `TravelSafetyMLModel._check_safety_alert` (predict.py lines 219-234). -/
def check_safety_alert (riskLevel : String) (threats : List ThreatMatch) :
    Option SafetyAlert :=
  if riskLevel == "high" && threats.length > 0 then
    some { type := "high_risk_area", severity := "high",
           message := "High risk area detected with "
             ++ toString threats.length
             ++ " active threat(s). Please exercise extreme caution." }
  else if riskLevel == "medium" && threats.length > 0 then
    some { type := "moderate_risk", severity := "medium",
           message := "Moderate risk detected with "
             ++ toString threats.length
             ++ " active threat(s). Please be cautious." }
  else
    none

/-- `TravelSafetyMLModel._get_fallback_result` (predict.py lines 236-250). -/
def get_fallback_result (errorMessage : String) : AssessmentResult :=
  { risk_level := "unknown",
    confidence := 0.0,
    prediction := "Analysis failed: " ++ errorMessage,
    insights := ["Unable to analyze location", "Please try again"],
    recommendations := ["Use general safety precautions", "Stay alert"],
    safety_alert := none,
    model_version := "1.0",
    processing_time := 0.0,
    district := "Unknown",
    threats_detected := 0,
    threat_details := [] }

/-- The body of `analyze_threats` after the district guard
(predict.py lines 106-156).  `processingTime` stands for the measured
wall-clock duration. -/
def analyze_success (profiles : Option (List ProfileRow)) (districtName : String)
    (articles : List SignalItem) (processingTime : ℚ) : AssessmentResult :=
  let threatProfile := get_district_threats profiles (some districtName)
  let threats := detectThreats districtName articles
  let riskLevel :=
    if threats.length > 0 then
      (if threats.length ≥ 2 then "high" else "medium")
    else "low"
  let confidence : ℚ :=
    if threats.length > 0 then
      (if threats.length ≥ 2 then 0.9 else 0.8)
    else 0.7
  { risk_level := riskLevel,
    confidence := confidence,
    prediction := generate_prediction districtName riskLevel,
    insights := generate_insights districtName threats threatProfile,
    recommendations := generate_recommendations riskLevel threats,
    safety_alert := check_safety_alert riskLevel threats,
    model_version := "1.0",
    processing_time := processingTime,
    district := districtName,
    threats_detected := threats.length,
    threat_details := threats }

/-- `TravelSafetyMLModel.analyze_threats` (predict.py lines 95-160).
The reverse-geocoding call is external, so the resolved district is an
input: `none` models `get_district_from_coordinates` returning `None`;
Python's `if not district_name` also fires on the empty string. -/
def analyze_threats (profiles : Option (List ProfileRow))
    (resolvedDistrict : Option String) (articles : List SignalItem)
    (processingTime : ℚ) : AssessmentResult :=
  match resolvedDistrict with
  | none => get_fallback_result "Could not determine district from coordinates"
  | some d =>
    if d == "" then
      get_fallback_result "Could not determine district from coordinates"
    else
      analyze_success profiles d articles processingTime

/-- The error object built in `main`'s `except` branch
(predict.py lines 279-292), without its extra `error` key. -/
def main_error_result : AssessmentResult :=
  { risk_level := "unknown",
    confidence := 0.0,
    prediction := "Error occurred during analysis",
    insights := ["Model error occurred"],
    recommendations := ["Please try again or contact support"],
    safety_alert := none,
    model_version := "1.0",
    processing_time := 0.0,
    district := "Unknown",
    threats_detected := 0,
    threat_details := [] }

/-- Outcome of one CLI run: the result object printed as JSON on
stdout (if a result was built) and the process exit code. -/
structure CliRun where
  printedResult : Option AssessmentResult
  exitCode : Nat
deriving Repr, DecidableEq

/-- `main` of predict.py (lines 252-294).  `argsOk` abstracts the
check `len(sys.argv) == 5` together with successful float parsing of
the three numeric arguments; when it fails, an error JSON is printed
and the process exits 1.  Otherwise `analyze_threats` (total here:
every internal exception is already converted to the fallback result
inside it) produces the result, which is printed, and the implicit
exit code is 0. -/
def main_run (argsOk : Bool) (profiles : Option (List ProfileRow))
    (resolvedDistrict : Option String) (articles : List SignalItem)
    (processingTime : ℚ) : CliRun :=
  if argsOk then
    { printedResult :=
        some (analyze_threats profiles resolvedDistrict articles processingTime),
      exitCode := 0 }
  else
    { printedResult := none, exitCode := 1 }

/-- The result dictionary produced by `SafetyMLModel.predict` and
`SafetyMLModel._get_fallback_result` in predict_template.py. -/
structure TemplateResult where
  risk_level : String
  confidence : ℚ
  prediction : String
  insights : List String
  recommendations : List String
  safety_alert : Option SafetyAlert
  model_version : String
  processing_time : ℚ
deriving Repr, DecidableEq

/-- `SafetyMLModel._calculate_risk_level` (predict_template.py lines 75-87). -/
def template_calculate_risk_level (lat lng accuracy : ℚ) : String :=
  if accuracy > 50 then "high"
  else if 23.0 ≤ lat ∧ lat ≤ 23.1 ∧ 72.5 ≤ lng ∧ lng ≤ 72.6 then "medium"
  else "low"

/-- `SafetyMLModel._calculate_confidence` (predict_template.py lines 89-99). -/
def template_calculate_confidence (accuracy : ℚ) : ℚ :=
  if accuracy < 10 then 0.95
  else if accuracy < 25 then 0.85
  else if accuracy < 50 then 0.70
  else 0.50

/-- `SafetyMLModel._generate_prediction` (predict_template.py lines 101-108). -/
def template_generate_prediction (riskLevel : String) : String :=
  if riskLevel == "low" then "Location appears safe for normal activities"
  else if riskLevel == "medium" then "Exercise caution in this area"
  else if riskLevel == "high" then "High risk area - avoid if possible"
  else "Unknown risk level"

/-- `SafetyMLModel._generate_insights` (predict_template.py lines 110-125). -/
def template_generate_insights (riskLevel : String) : List String :=
  if riskLevel == "high" then
    ["High-risk area detected",
     "Historical incident data shows elevated risk"]
  else if riskLevel == "medium" then
    ["Moderate risk factors present",
     "Some safety concerns in this area"]
  else
    ["Area appears generally safe",
     "Low historical incident rate"]

/-- `SafetyMLModel._generate_recommendations` (predict_template.py lines 127-143). -/
def template_generate_recommendations (riskLevel : String) : List String :=
  if riskLevel == "high" then
    ["Avoid staying in this area for extended periods",
     "Stay alert and aware of surroundings",
     "Consider alternative routes if possible"]
  else if riskLevel == "medium" then
    ["Be cautious and aware of your surroundings",
     "Avoid isolated areas"]
  else
    ["Continue normal activities with standard safety precautions",
     "Maintain general awareness"]

/-- `SafetyMLModel._check_safety_alert` (predict_template.py lines 145-161). -/
def template_check_safety_alert (riskLevel : String) (confidence : ℚ) :
    Option SafetyAlert :=
  if riskLevel == "high" ∧ confidence > 0.8 then
    some { type := "high_risk_area", severity := "high",
           message := "You are in a high-risk area. Please exercise extreme caution." }
  else if riskLevel == "medium" ∧ confidence > 0.7 then
    some { type := "moderate_risk", severity := "medium",
           message := "Moderate risk detected. Please be cautious." }
  else
    none

/-- `SafetyMLModel._get_fallback_result` (predict_template.py lines 163-174). -/
def template_fallback_result : TemplateResult :=
  { risk_level := "unknown",
    confidence := 0.0,
    prediction := "Model prediction failed",
    insights := ["Unable to analyze location"],
    recommendations := ["Please try again or contact support"],
    safety_alert := none,
    model_version := "1.0",
    processing_time := 0.0 }

/-- `SafetyMLModel.predict` (predict_template.py lines 42-73).
`processingTime` stands for the measured wall-clock duration. -/
def template_predict (lat lng accuracy : ℚ) (processingTime : ℚ) :
    TemplateResult :=
  let riskLevel := template_calculate_risk_level lat lng accuracy
  let confidence := template_calculate_confidence accuracy
  { risk_level := riskLevel,
    confidence := confidence,
    prediction := template_generate_prediction riskLevel,
    insights := template_generate_insights riskLevel,
    recommendations := template_generate_recommendations riskLevel,
    safety_alert := template_check_safety_alert riskLevel confidence,
    model_version := "1.0",
    processing_time := processingTime }

/-- A JSON value, for the `json.dumps` output of both scripts. -/
inductive JsonVal where
  | jnull : JsonVal
  | jstr : String → JsonVal
  | jnum : ℚ → JsonVal
  | jarr : List JsonVal → JsonVal
  | jobj : List (String × JsonVal) → JsonVal
deriving Repr

/-- JSON encoding of an optional string (`None` ↦ `null`). -/
def encodeOptStr : Option String → JsonVal
  | none => JsonVal.jnull
  | some s => JsonVal.jstr s

/-- JSON encoding of a `ThreatMatch` dict (predict.py lines 124-129). -/
def encodeThreatMatch (t : ThreatMatch) : JsonVal :=
  JsonVal.jobj
    [("title", JsonVal.jstr t.title),
     ("source", encodeOptStr t.source),
     ("url", encodeOptStr t.url),
     ("district", JsonVal.jstr t.district)]

/-- JSON encoding of a `SafetyAlert` dict. -/
def encodeAlert (a : SafetyAlert) : JsonVal :=
  JsonVal.jobj
    [("type", JsonVal.jstr a.type),
     ("severity", JsonVal.jstr a.severity),
     ("message", JsonVal.jstr a.message)]

/-- JSON encoding of an optional alert (`None` ↦ `null`). -/
def encodeOptAlert : Option SafetyAlert → JsonVal
  | none => JsonVal.jnull
  | some a => encodeAlert a

/-- JSON encoding of the result dict of predict.py, with the keys in
the order they appear in the dict literals of lines 144-156 and
238-250. -/
def encodeResult (r : AssessmentResult) : JsonVal :=
  JsonVal.jobj
    [("risk_level", JsonVal.jstr r.risk_level),
     ("confidence", JsonVal.jnum r.confidence),
     ("prediction", JsonVal.jstr r.prediction),
     ("insights", JsonVal.jarr (r.insights.map JsonVal.jstr)),
     ("recommendations", JsonVal.jarr (r.recommendations.map JsonVal.jstr)),
     ("safety_alert", encodeOptAlert r.safety_alert),
     ("model_version", JsonVal.jstr r.model_version),
     ("processing_time", JsonVal.jnum r.processing_time),
     ("district", JsonVal.jstr r.district),
     ("threats_detected", JsonVal.jnum (r.threats_detected : ℚ)),
     ("threat_details", JsonVal.jarr (r.threat_details.map encodeThreatMatch))]

/-- JSON encoding of the result dict of predict_template.py, with the
keys in the order they appear in the dict literals of lines 60-69 and
165-174. -/
def encodeTemplateResult (r : TemplateResult) : JsonVal :=
  JsonVal.jobj
    [("risk_level", JsonVal.jstr r.risk_level),
     ("confidence", JsonVal.jnum r.confidence),
     ("prediction", JsonVal.jstr r.prediction),
     ("insights", JsonVal.jarr (r.insights.map JsonVal.jstr)),
     ("recommendations", JsonVal.jarr (r.recommendations.map JsonVal.jstr)),
     ("safety_alert", encodeOptAlert r.safety_alert),
     ("model_version", JsonVal.jstr r.model_version),
     ("processing_time", JsonVal.jnum r.processing_time)]

/-- Top-level keys of a JSON value (empty for non-objects). -/
def jsonKeys : JsonVal → List String
  | JsonVal.jobj fields => fields.map Prod.fst
  | _ => []

/-- Modelled from the spec: the documented `AssessmentResult` field
names, in the order the spec's data model lists them. -/
def documentedAssessmentFields : List String :=
  ["risk_level", "confidence", "prediction", "insights", "recommendations",
   "safety_alert", "model_version", "processing_time", "district",
   "threats_detected", "threat_details"]

/-!
Helper lemmas shared by the claim theorems.
-/

/-- `listPrefixOf` decides the prefix relation. -/
theorem listPrefixOf_iff (n h : List Char) :
    listPrefixOf n h = true ↔ ∃ rest, h = n ++ rest := by
  induction n generalizing h with
  | nil => simp [listPrefixOf]
  | cons a as ih =>
    cases h with
    | nil => simp [listPrefixOf]
    | cons b bs =>
      simp [listPrefixOf, ih, eq_comm (a := a) (b := b)]

/-- `containsSub` decides contiguous containment. -/
theorem containsSub_iff (n h : List Char) :
    containsSub n h = true ↔ ∃ pre post, h = pre ++ n ++ post := by
  induction h with
  | nil => simp [containsSub, listPrefixOf_iff]
  | cons c t ih =>
    simp [containsSub, listPrefixOf_iff, ih]
    constructor
    · rintro (⟨rest, hr⟩ | ⟨pre, post, hp⟩)
      · exact ⟨[], rest, by simp [hr]⟩
      · exact ⟨c :: pre, post, by simp [hp]⟩
    · rintro ⟨pre, post, hp⟩
      cases pre with
      | nil => exact Or.inl ⟨post, by simpa using hp⟩
      | cons x xs =>
        right
        rcases List.cons_eq_cons.mp hp with ⟨-, h2⟩
        exact ⟨xs, post, h2⟩

/-- `strContains` decides the mathematical substring relation. -/
theorem strContains_iff (hay needle : String) :
    strContains hay needle = true ↔
      ∃ pre post, hay.data = pre ++ needle.data ++ post :=
  containsSub_iff needle.data hay.data

/-- The threat-collection loop keeps exactly the matching articles, in
their original order, tagged with the district. -/
theorem detectThreats_eq_filter_map (d : String) (l : List SignalItem) :
    detectThreats d l =
      (l.filter fun a => titleMatches d a.title).map
        (fun a => { title := a.title, source := a.sourceName,
                    url := a.url, district := d }) := by
  induction l with
  | nil => rfl
  | cons x xs ih =>
    by_cases h : titleMatches d x.title
    · simp [detectThreats, List.filterMap_cons, List.filter_cons, h] at *
      exact ih
    · simp [detectThreats, List.filterMap_cons, List.filter_cons, h] at *
      exact ih

/-- Unresolved district short-circuits to the fallback result. -/
theorem analyze_threats_none (p : Option (List ProfileRow))
    (a : List SignalItem) (t : ℚ) :
    analyze_threats p none a t =
      get_fallback_result "Could not determine district from coordinates" := rfl

/-- A non-empty resolved district takes the success path. -/
theorem analyze_threats_some (p : Option (List ProfileRow)) (d : String)
    (a : List SignalItem) (t : ℚ) (hd : d ≠ "") :
    analyze_threats p (some d) a t = analyze_success p d a t := by
  simp [analyze_threats, hd]

/-- Field of the success result: `threat_details`. -/
theorem success_threat_details (p : Option (List ProfileRow)) (d : String)
    (a : List SignalItem) (t : ℚ) :
    (analyze_success p d a t).threat_details = detectThreats d a := rfl

/-- Field of the success result: `threats_detected`. -/
theorem success_threats_detected (p : Option (List ProfileRow)) (d : String)
    (a : List SignalItem) (t : ℚ) :
    (analyze_success p d a t).threats_detected = (detectThreats d a).length := rfl

/-- Field of the success result: `district`. -/
theorem success_district (p : Option (List ProfileRow)) (d : String)
    (a : List SignalItem) (t : ℚ) :
    (analyze_success p d a t).district = d := rfl

/-- Field of the success result: `risk_level`. -/
theorem success_risk_level (p : Option (List ProfileRow)) (d : String)
    (a : List SignalItem) (t : ℚ) :
    (analyze_success p d a t).risk_level =
      (if (detectThreats d a).length > 0 then
        (if (detectThreats d a).length ≥ 2 then "high" else "medium")
       else "low") := rfl

/-- Field of the success result: `confidence`. -/
theorem success_confidence (p : Option (List ProfileRow)) (d : String)
    (a : List SignalItem) (t : ℚ) :
    (analyze_success p d a t).confidence =
      (if (detectThreats d a).length > 0 then
        (if (detectThreats d a).length ≥ 2 then (0.9 : ℚ) else 0.8)
       else 0.7) := rfl

/-- Field of the success result: `safety_alert`. -/
theorem success_safety_alert (p : Option (List ProfileRow)) (d : String)
    (a : List SignalItem) (t : ℚ) :
    (analyze_success p d a t).safety_alert =
      check_safety_alert (analyze_success p d a t).risk_level
        (detectThreats d a) := rfl

/-- Field of the success result: `insights`. -/
theorem success_insights (p : Option (List ProfileRow)) (d : String)
    (a : List SignalItem) (t : ℚ) :
    (analyze_success p d a t).insights =
      generate_insights d (detectThreats d a)
        (get_district_threats p (some d)) := rfl

/-- Index arithmetic: skipping the two leading entries of a list. -/
theorem getElem_cons_cons_two_add {α : Type} (x y : α) (l : List α) (n : Nat) :
    (x :: y :: l)[2 + n]? = l[n]? := by
  have h : 2 + n = n + 1 + 1 := by omega
  rw [h, List.getElem?_cons_succ, List.getElem?_cons_succ]

/-- Position and content of the history line inside the generated
insights: index 2 when no threat matched, index `2 + n` when `n > 0`
threats matched; the limited-data variant appears exactly when the
profile lookup result contains the substring checked on predict.py
line 175. -/
theorem generate_insights_history (d : String) (threats : List ThreatMatch)
    (tp : String) :
    (generate_insights d threats tp)[(if threats.length = 0 then 2
        else 2 + threats.length)]? =
      some (if strContains tp "No specific threat data" then
              "Limited historical threat data for this district"
            else "Historical threat data available for this district") := by
  by_cases h : threats.length = 0
  · rw [List.length_eq_zero.mp h]
    simp [generate_insights]
  · simp only [generate_insights, Nat.pos_of_ne_zero h, h, if_false,
      Nat.lt_irrefl, gt_iff_lt, List.length_pos, List.cons_append,
      List.singleton_append, if_true, List.append_assoc, List.nil_append]
    rw [getElem_cons_cons_two_add]
    rw [List.getElem?_append_right (by simp)]
    simp

/-!
Claim theorems.
-/

/-- C1: for every successful classifier run (district resolved to a
non-empty name, no internal exception), the risk level and confidence
are a total function of the threat-match count `n`: `n = 0` yields
low/0.7, `n = 1` yields medium/0.8, and `n ≥ 2` yields high/0.9. -/
theorem risk_decision_total (p : Option (List ProfileRow)) (d : String)
    (a : List SignalItem) (t : ℚ) (hd : d ≠ "") :
    ((analyze_threats p (some d) a t).threats_detected = 0 →
      (analyze_threats p (some d) a t).risk_level = "low" ∧
      (analyze_threats p (some d) a t).confidence = 0.7) ∧
    ((analyze_threats p (some d) a t).threats_detected = 1 →
      (analyze_threats p (some d) a t).risk_level = "medium" ∧
      (analyze_threats p (some d) a t).confidence = 0.8) ∧
    (2 ≤ (analyze_threats p (some d) a t).threats_detected →
      (analyze_threats p (some d) a t).risk_level = "high" ∧
      (analyze_threats p (some d) a t).confidence = 0.9) := by
  rw [analyze_threats_some p d a t hd]
  rw [success_threats_detected, success_risk_level, success_confidence]
  generalize (detectThreats d a).length = n
  refine ⟨fun h0 => ?_, fun h1 => ?_, fun h2 => ?_⟩
  · simp [h0]
  · simp [h1]
  · rw [if_pos (by omega), if_pos h2, if_pos (by omega), if_pos h2]
    exact ⟨rfl, rfl⟩

/-- Witness for C1: with district Mumbai and the mock article list
exactly one article matches, and the run is classified medium/0.8. -/
theorem risk_decision_total_witness :
    ("Mumbai" ≠ "") ∧
    (analyze_threats none (some "Mumbai") get_mock_news_articles 0).threats_detected = 1 ∧
    ((analyze_threats none (some "Mumbai") get_mock_news_articles 0).risk_level = "medium" ∧
     (analyze_threats none (some "Mumbai") get_mock_news_articles 0).confidence = 0.8) :=
  ⟨by decide, by decide,
    (risk_decision_total none "Mumbai" get_mock_news_articles 0 (by decide)).2.1
      (by decide)⟩

/-- C2: a SignalItem counts as a threat match for the district iff its
lower-cased title contains some keyword of `THREAT_KEYWORDS` and also
contains the lower-cased district name as a contiguous substring; in
particular the Mumbai-protest title matches district Mumbai and the
Delhi-flood title does not. -/
theorem match_rule :
    (∀ (d : String) (item : SignalItem),
        detectThreats d [item] ≠ [] ↔
          ((∃ kw, kw ∈ THREAT_KEYWORDS ∧
              ∃ pre post, (lowerStr item.title).data = pre ++ kw.data ++ post) ∧
           ∃ pre post,
              (lowerStr item.title).data = pre ++ (lowerStr d).data ++ post)) ∧
    detectThreats "Mumbai"
        [{ title := "Mumbai traffic chaos due to political protest",
           sourceName := none, url := none }] =
      [{ title := "Mumbai traffic chaos due to political protest",
         source := none, url := none, district := "Mumbai" }] ∧
    detectThreats "Mumbai"
        [{ title := "Heavy rains and flood warnings issued for Delhi",
           sourceName := none, url := none }] = [] := by
  refine ⟨?_, by decide, by decide⟩
  intro d item
  have hstep : detectThreats d [item] ≠ [] ↔ titleMatches d item.title = true := by
    by_cases h : titleMatches d item.title <;>
      simp [detectThreats, List.filterMap, h]
  rw [hstep]
  simp only [titleMatches, Bool.and_eq_true, List.any_eq_true, strContains_iff]

/-- C3 counterexample: when the profile table was never loaded, the
lookup returns its no-data sentinel `"No threat data available"`, yet
the third insight line of the run is the historical-data-available
line, not the limited-data line. -/
theorem history_line_cex :
    get_district_threats none (some "Mumbai") = "No threat data available" ∧
    (analyze_threats none (some "Mumbai") [] 0).insights[2]? =
      some "Historical threat data available for this district" ∧
    (analyze_threats none (some "Mumbai") [] 0).insights[2]? ≠
      some "Limited historical threat data for this district" := by
  refine ⟨rfl, rfl, ?_⟩
  decide

/-- C3 amended: for every successful run the history insight line
(index 2 when no threats matched, index 2 + n when n > 0 matched) is
the limited-data line exactly when the profile lookup result contains
the substring `"No specific threat data"` — i.e. when lookup returned
the district-specific sentinel — and the historical-data-available
line otherwise; the never-loaded sentinel `"No threat data available"`
does not contain that substring and so yields the historical line. -/
theorem history_line (p : Option (List ProfileRow)) (d : String)
    (a : List SignalItem) (t : ℚ) (hd : d ≠ "") :
    (analyze_threats p (some d) a t).insights[(if
        (analyze_threats p (some d) a t).threats_detected = 0 then 2
        else 2 + (analyze_threats p (some d) a t).threats_detected)]? =
      some (if strContains (get_district_threats p (some d))
              "No specific threat data" then
              "Limited historical threat data for this district"
            else "Historical threat data available for this district") := by
  rw [analyze_threats_some p d a t hd, success_insights, success_threats_detected]
  exact generate_insights_history d (detectThreats d a) _

/-- Witness for the amended C3, at district Delhi with the mock
articles (one match, so the history line sits at index 3). -/
theorem history_line_witness :
    ("Delhi" ≠ "") ∧
    (analyze_threats none (some "Delhi") get_mock_news_articles 0).insights[(if
        (analyze_threats none (some "Delhi") get_mock_news_articles 0).threats_detected = 0 then 2
        else 2 + (analyze_threats none (some "Delhi") get_mock_news_articles 0).threats_detected)]? =
      some (if strContains (get_district_threats none (some "Delhi"))
              "No specific threat data" then
              "Limited historical threat data for this district"
            else "Historical threat data available for this district") :=
  ⟨by decide, history_line none "Delhi" get_mock_news_articles 0 (by decide)⟩

/-- C4 counterexample: the documented field `district` is absent from
the JSON object printed by the templated script, so the two scripts do
not expose the same output contract. -/
theorem contract_fields_cex :
    "district" ∈ documentedAssessmentFields ∧
    "district" ∉ jsonKeys (encodeTemplateResult (template_predict 0 0 0 0)) := by
  exact ⟨by decide, by decide⟩

/-- C4 amended: every JSON object printed by the wired-up script
(success, fallback, and the hard-error object apart from its extra
`error` key) carries exactly the 11 documented AssessmentResult
fields, while every object printed by the templated script carries
exactly the first 8 of them (`risk_level` through `processing_time`),
missing `district`, `threats_detected` and `threat_details`. -/
theorem output_contract_fields :
    (∀ (p : Option (List ProfileRow)) (od : Option String)
        (a : List SignalItem) (t : ℚ),
        jsonKeys (encodeResult (analyze_threats p od a t)) =
          documentedAssessmentFields) ∧
    jsonKeys (encodeResult main_error_result) = documentedAssessmentFields ∧
    (∀ lat lng acc t : ℚ,
        jsonKeys (encodeTemplateResult (template_predict lat lng acc t)) =
          documentedAssessmentFields.take 8) ∧
    jsonKeys (encodeTemplateResult template_fallback_result) =
      documentedAssessmentFields.take 8 ∧
    documentedAssessmentFields.take 8 ≠ documentedAssessmentFields := by
  refine ⟨fun p od a t => rfl, rfl, fun lat lng acc t => rfl, rfl, by decide⟩

/-- C5: for every result the wired-up script can print, the safety
alert is `null` exactly when the match count is 0, and when an alert
exists its type and severity mirror the risk level. -/
theorem alert_iff (p : Option (List ProfileRow))
    (od : Option String) (a : List SignalItem) (t : ℚ) :
    ((analyze_threats p od a t).safety_alert = none ↔
      (analyze_threats p od a t).threats_detected = 0) ∧
    (∀ al, (analyze_threats p od a t).safety_alert = some al →
      ((analyze_threats p od a t).risk_level = "high" →
        al.type = "high_risk_area" ∧ al.severity = "high") ∧
      ((analyze_threats p od a t).risk_level = "medium" →
        al.type = "moderate_risk" ∧ al.severity = "medium")) := by
  cases od with
  | none => exact ⟨by simp [analyze_threats_none, get_fallback_result], by
      simp [analyze_threats_none, get_fallback_result]⟩
  | some d =>
    by_cases hd : d = ""
    · subst hd
      exact ⟨by simp [analyze_threats, get_fallback_result], by
        simp [analyze_threats, get_fallback_result]⟩
    · rw [analyze_threats_some p d a t hd]
      rw [success_safety_alert, success_risk_level, success_threats_detected]
      by_cases h0 : (detectThreats d a).length > 0
      · by_cases h2 : (detectThreats d a).length ≥ 2
        · simp [h0, h2, check_safety_alert]
          exact List.length_pos.mp h0
        · simp [h0, h2, check_safety_alert]
          exact List.length_pos.mp h0
      · simp [h0, check_safety_alert]
        exact List.length_eq_zero.mp (by omega)

/-- Witness for C5: at district Mumbai with the mock articles the
alert-is-null-iff-no-matches equivalence holds concretely. -/
theorem alert_iff_witness :
    (analyze_threats none (some "Mumbai") get_mock_news_articles 0).safety_alert = none ↔
    (analyze_threats none (some "Mumbai") get_mock_news_articles 0).threats_detected = 0 :=
  (alert_iff none (some "Mumbai") get_mock_news_articles 0).1

/-- C6: for every result the program can produce (success, fallback,
or the hard-error object), `threats_detected` equals the length of
`threat_details`. -/
theorem threats_detected_len :
    (∀ (p : Option (List ProfileRow)) (od : Option String)
        (a : List SignalItem) (t : ℚ),
        (analyze_threats p od a t).threats_detected =
          (analyze_threats p od a t).threat_details.length) ∧
    main_error_result.threats_detected =
      main_error_result.threat_details.length := by
  refine ⟨fun p od a t => ?_, rfl⟩
  cases od with
  | none => rfl
  | some d =>
    by_cases hd : d = ""
    · subst hd; rfl
    · rw [analyze_threats_some p d a t hd]; rfl

/-- C7: for every result, the risk level is `unknown` iff district
resolution failed (the resolver returned `None` or an empty name) —
the only failure the embedded pipeline can surface — or, for the
hard-error object, an unrecoverable error occurred; in those cases the
confidence is exactly 0 and the threat details are empty. -/
theorem unknown_iff :
    (∀ (p : Option (List ProfileRow)) (od : Option String)
        (a : List SignalItem) (t : ℚ),
        ((analyze_threats p od a t).risk_level = "unknown" ↔
          (od = none ∨ od = some "")) ∧
        ((analyze_threats p od a t).risk_level = "unknown" →
          (analyze_threats p od a t).confidence = 0 ∧
          (analyze_threats p od a t).threat_details = [])) ∧
    (main_error_result.risk_level = "unknown" ∧
     main_error_result.confidence = 0 ∧
     main_error_result.threat_details = []) := by
  refine ⟨fun p od a t => ?_, rfl, by norm_num [main_error_result], rfl⟩
  cases od with
  | none =>
    refine ⟨by simp [analyze_threats_none, get_fallback_result], fun _ => ⟨?_, rfl⟩⟩
    show (0.0 : ℚ) = 0
    norm_num
  | some d =>
    by_cases hd : d = ""
    · subst hd
      refine ⟨by simp [analyze_threats, get_fallback_result], fun _ => ⟨?_, rfl⟩⟩
      show (0.0 : ℚ) = 0
      norm_num
    · rw [analyze_threats_some p d a t hd]
      rw [success_risk_level, success_confidence, success_threat_details]
      constructor
      · constructor
        · intro h
          by_cases h0 : (detectThreats d a).length > 0
          · by_cases h2 : (detectThreats d a).length ≥ 2 <;> simp [h0, h2] at h
          · simp [h0] at h
        · rintro (h | h)
          · exact absurd h (by simp)
          · exact absurd (Option.some_injective _ h) hd
      · intro h
        by_cases h0 : (detectThreats d a).length > 0
        · by_cases h2 : (detectThreats d a).length ≥ 2 <;> simp [h0, h2] at h
        · simp [h0] at h

/-- Witness for C7: an unresolved district yields risk level
`unknown` with confidence 0 and empty threat details. -/
theorem unknown_iff_witness :
    (analyze_threats none none get_mock_news_articles 0).confidence = 0 ∧
    (analyze_threats none none get_mock_news_articles 0).threat_details = [] :=
  (unknown_iff.1 none none get_mock_news_articles 0).2 rfl

/-- C8: whenever district resolution returns `None`, the pipeline
returns exactly the canonical fallback AssessmentResult, whose pinned
fields are spelled out, the CLI prints it as the result, and the
process exit code is 0. -/
theorem resolution_null_fallback (p : Option (List ProfileRow))
    (a : List SignalItem) (t : ℚ) :
    analyze_threats p none a t =
      get_fallback_result "Could not determine district from coordinates" ∧
    (analyze_threats p none a t).risk_level = "unknown" ∧
    (analyze_threats p none a t).confidence = 0 ∧
    (analyze_threats p none a t).insights =
      ["Unable to analyze location", "Please try again"] ∧
    (analyze_threats p none a t).recommendations =
      ["Use general safety precautions", "Stay alert"] ∧
    (analyze_threats p none a t).safety_alert = none ∧
    (analyze_threats p none a t).threats_detected = 0 ∧
    (analyze_threats p none a t).threat_details = [] ∧
    main_run true p none a t =
      { printedResult :=
          some (get_fallback_result "Could not determine district from coordinates"),
        exitCode := 0 } := by
  refine ⟨rfl, rfl, ?_, rfl, rfl, rfl, rfl, rfl, rfl⟩
  show (0.0 : ℚ) = 0
  norm_num

/-- C9: on a successful run, the threat details are exactly the
matching articles in their original order, each tagged with the
district reported by the result itself. -/
theorem details_district_order (p : Option (List ProfileRow)) (d : String)
    (a : List SignalItem) (t : ℚ) (hd : d ≠ "") :
    (analyze_threats p (some d) a t).threat_details =
      (a.filter fun x => titleMatches d x.title).map
        (fun x => { title := x.title, source := x.sourceName,
                    url := x.url, district := d }) ∧
    ∀ tm ∈ (analyze_threats p (some d) a t).threat_details,
      tm.district = (analyze_threats p (some d) a t).district := by
  rw [analyze_threats_some p d a t hd, success_threat_details, success_district]
  refine ⟨detectThreats_eq_filter_map d a, ?_⟩
  intro tm htm
  rw [detectThreats_eq_filter_map d a] at htm
  simp only [List.mem_map] at htm
  obtain ⟨x, -, hx⟩ := htm
  rw [← hx]

/-- Witness for C9: at district Mumbai with the mock articles the
threat details equal the filtered-and-tagged article list. -/
theorem details_district_order_witness :
    ("Mumbai" ≠ "") ∧
    (analyze_threats none (some "Mumbai") get_mock_news_articles 0).threat_details =
      (get_mock_news_articles.filter fun x => titleMatches "Mumbai" x.title).map
        (fun x => { title := x.title, source := x.sourceName,
                    url := x.url, district := "Mumbai" }) :=
  ⟨by decide,
    (details_district_order none "Mumbai" get_mock_news_articles 0 (by decide)).1⟩

/-- C10: every result of the wired-up analyzer has confidence in the
four-element set 0, 0.7, 0.8, 0.9, and confidence 0 exactly when the
risk level is `unknown`. -/
theorem confidence_range (p : Option (List ProfileRow))
    (od : Option String) (a : List SignalItem) (t : ℚ) :
    ((analyze_threats p od a t).confidence = 0 ∨
     (analyze_threats p od a t).confidence = 0.7 ∨
     (analyze_threats p od a t).confidence = 0.8 ∨
     (analyze_threats p od a t).confidence = 0.9) ∧
    ((analyze_threats p od a t).confidence = 0 ↔
      (analyze_threats p od a t).risk_level = "unknown") := by
  cases od with
  | none =>
    refine ⟨Or.inl (by norm_num [analyze_threats_none, get_fallback_result]),
      fun _ => rfl, fun _ => by norm_num [analyze_threats_none, get_fallback_result]⟩
  | some d =>
    by_cases hd : d = ""
    · subst hd
      refine ⟨Or.inl (by norm_num [analyze_threats, get_fallback_result]),
        fun _ => rfl, fun _ => by norm_num [analyze_threats, get_fallback_result]⟩
    · rw [analyze_threats_some p d a t hd]
      rw [success_confidence, success_risk_level]
      by_cases h0 : (detectThreats d a).length > 0
      · by_cases h2 : (detectThreats d a).length ≥ 2
        · refine ⟨by simp [h0, h2], ?_⟩
          simp [h0, h2]
          intro h; norm_num at h
        · refine ⟨by simp [h0, h2], ?_⟩
          simp [h0, h2]
          intro h; norm_num at h
      · refine ⟨by simp [h0], ?_⟩
        simp [h0]
        intro h; norm_num at h

/-- Witness for C10: at district Jaipur with the mock articles the
confidence-zero-iff-unknown equivalence holds concretely. -/
theorem confidence_range_witness :
    (analyze_threats none (some "Jaipur") get_mock_news_articles 0).confidence = 0 ↔
    (analyze_threats none (some "Jaipur") get_mock_news_articles 0).risk_level = "unknown" :=
  (confidence_range none (some "Jaipur") get_mock_news_articles 0).2

end SafeTrail
